import Mathlib

/-! Shallow embedding of `src/propsProblem/propsProblem.cpp`: a heterogeneous
property store built from type-erased value cells (`BaseProperty` /
`Property<T>`) kept in a `std::unordered_map<size_t, std::shared_ptr<BaseProperty>>`
keyed by a hashed identifier, together with the `Bounds` value type and the
enum catalogs the demo uses.

Modelling conventions:
* `std::hash<size_t>` is implementation-defined, so every store operation takes
  it as an explicit parameter `hash : Nat → Nat`.
* `std::optional<T>` is `Option T`. A call that throws a C++ exception is
  modelled in `Except CppExc`; `CppExc.badOptionalAccess` stands for
  `std::bad_optional_access`, which `std::optional::value()` throws on an
  empty optional (the source calls `.value()` unconditionally on the result
  of `BaseProperty::get`, lines 216, 225, 235).
* The map is an association list `List (Nat × Cell)`. `std::unordered_map::insert`
  inserts only if the container holds no element with an equivalent key; it
  never replaces an existing entry.
* `ValTy` is the closed universe of value types the program instantiates the
  templates with. A `Cell` records the dynamic type `Property<A>` of the
  object a map entry points to, while lookups act through the entry's static
  type `BaseProperty` (the pointer type stored in the map, line 253).
-/

set_option autoImplicit false

namespace PropsProblem

/-- `enum class EntityType` (lines 32-38). -/
inductive EntityType
  | Invalid | Building | Unit | Resource
  deriving DecidableEq

/-- `enum class BuildingType` (lines 40-49). -/
inductive BuildingType
  | Invalid | TownCenter | Barracks | ArcheryRange | Stable | Monastery | SiegeWorkshop
  deriving DecidableEq

/-- `enum class UnitType` (lines 51-60). -/
inductive UnitType
  | Invalid | Worker | Archer | Swordman | Horseman | Monk | Mangonel
  deriving DecidableEq

/-- `enum class ResourceType` (lines 62-68). -/
inductive ResourceType
  | Invalid | Food | Wood | Gold
  deriving DecidableEq

/-- `enum class CommonPropertyId` (lines 75-80). -/
inductive CommonPropertyId
  | Invalid | HealthPoints | Bounds
  deriving DecidableEq

/-- `enum class BuildingPropertyId` (lines 82-87). -/
inductive BuildingPropertyId
  | Invalid | BuildingType | Bounds
  deriving DecidableEq

/-- `enum class UnitPropertyId` (lines 89-93). -/
inductive UnitPropertyId
  | Invalid | MovementSpeed
  deriving DecidableEq

/-- `static_cast<std::size_t>` of a `BuildingPropertyId` member: scoped enums
number their members 0, 1, 2, … in declaration order. -/
def BuildingPropertyId.toUnderlying : BuildingPropertyId → Nat
  | .Invalid => 0
  | .BuildingType => 1
  | .Bounds => 2

/-- `static_cast<std::size_t>` of a `UnitPropertyId` member. -/
def UnitPropertyId.toUnderlying : UnitPropertyId → Nat
  | .Invalid => 0
  | .MovementSpeed => 1

/-- `static_cast<std::size_t>` of a `CommonPropertyId` member. -/
def CommonPropertyId.toUnderlying : CommonPropertyId → Nat
  | .Invalid => 0
  | .HealthPoints => 1
  | .Bounds => 2

/-- `class Bounds` (lines 137-178): four `int` fields set by the constructor. -/
structure Bounds where
  mX : Int
  mY : Int
  mWidth : Int
  mHeight : Int
  deriving DecidableEq

/-- `Bounds::x()` (lines 148-151). -/
def Bounds.x (b : Bounds) : Int := b.mX

/-- `Bounds::y()` (lines 153-156). -/
def Bounds.y (b : Bounds) : Int := b.mY

/-- `Bounds::width()` (lines 158-161). -/
def Bounds.width (b : Bounds) : Int := b.mWidth

/-- `Bounds::height()` (lines 163-166). -/
def Bounds.height (b : Bounds) : Int := b.mHeight

/-- `Bounds::contains(int x, int y)` (lines 168-171):
`x >= x() && x <= x() + width() && y >= y() && y <= y() + height()`. -/
def Bounds.contains (b : Bounds) (x y : Int) : Bool :=
  decide (x ≥ b.x) && decide (x ≤ b.x + b.width) && decide (y ≥ b.y) &&
    decide (y ≤ b.y + b.height)

/-- `class BaseProperty` (lines 95-106): no data members. -/
structure BaseProperty where

/-- `BaseProperty::get<T>()` (lines 101-104): a non-virtual member template that
returns `std::nullopt` for every `T`. -/
def BaseProperty.get (T : Type) (_ : BaseProperty) : Option T := none

/-- `Property<T>` (lines 108-131): the derived cell owning one value `mObj`,
initialised by the constructor `Property(T obj)` (line 112). -/
structure Property (T : Type) where
  mObj : T

/-- `Property<T>::set(T obj)` (lines 117-120): replaces the held value. -/
def Property.set {T : Type} (_ : Property T) (obj : T) : Property T :=
  Property.mk obj

/-- `Property<T>::get<U>` (lines 122-126) instantiated at `U = T`:
`return mObj;` wraps the held value in an optional of the same type. -/
def Property.getSame {T : Type} (p : Property T) : Option T :=
  some p.mObj

/-- `Property<int>::get<bool>` (lines 122-126): `return mObj;` copy-initialises
`std::optional<bool>` from the held `int`, applying the built-in C++
`int`-to-`bool` conversion (nonzero becomes `true`). -/
def Property.getBoolOfInt (p : Property Int) : Option Bool :=
  some (p.mObj != 0)

/-- The closed universe of value types the program stores in cells (the
template arguments `ValueType` is instantiated with, plus `int` and `bool`
used in the demo's fallback calls). -/
inductive ValTy
  | tInt | tBool | tBuildingType | tUnitType | tBounds
  deriving DecidableEq

/-- The Lean type denoted by each `ValTy` code. -/
@[reducible] def ValTy.interp : ValTy → Type
  | .tInt => Int
  | .tBool => Bool
  | .tBuildingType => BuildingType
  | .tUnitType => UnitType
  | .tBounds => Bounds

/-- A map entry's pointee: the `Property<A>` object a
`std::shared_ptr<BaseProperty>` points to. The dynamic type `A` and the held
value exist in the object, but the store only ever accesses the entry through
the static type `BaseProperty`. -/
structure Cell where
  ty : ValTy
  prop : Property ty.interp

/-- The derived-to-base view taken when a `std::shared_ptr<Property<A>>` is
stored as (and later dereferenced through) `std::shared_ptr<BaseProperty>`:
the base subobject carries no data. -/
def Cell.toBase (_ : Cell) : BaseProperty := BaseProperty.mk

/-- C++ exceptions the embedded code can throw. -/
inductive CppExc
  | badOptionalAccess
  deriving DecidableEq

/-- `std::unordered_map::find` on the association-list model: the first entry
with an equivalent key, if any. -/
def mapFind : List (Nat × Cell) → Nat → Option Cell
  | [], _ => none
  | (k, c) :: rest, key => if k = key then some c else mapFind rest key

/-- `std::unordered_map::insert` (used at lines 193 and 198): inserts the pair
only if the container holds no element with an equivalent key; when the key is
already present the call does nothing (it does not replace the mapped value). -/
def mapInsert (m : List (Nat × Cell)) (k : Nat) (c : Cell) : List (Nat × Cell) :=
  match mapFind m k with
  | some _ => m
  | none => (k, c) :: m

/-- `class Properties` (lines 181-254): owns
`std::unordered_map<size_t, std::shared_ptr<BaseProperty>> mProperties` (line 253). -/
structure Properties where
  mProperties : List (Nat × Cell)

/-- The default-initialised store: `mProperties = {}` (line 253). -/
def Properties.empty : Properties := Properties.mk []

/-- The key computed by `Properties::set` for an enumeration `IdType`
(line 192): `std::hash<size_t>{}(static_cast<std::size_t>(id))`. -/
def Properties.setKeyEnum (hash : Nat → Nat) (u : Nat) : Nat := hash u

/-- The key computed by `Properties::get` for an enumeration `IdType`
(line 213): `std::hash<size_t>{}(static_cast<std::size_t>(id))`. -/
def Properties.getKeyEnum (hash : Nat → Nat) (u : Nat) : Nat := hash u

/-- The key computed by `Properties::set` for a trivial non-enum `IdType`
(line 197): `std::hash<IdType>{}(id)`, the hash of the identifier's own value
(`hashId` models `std::hash<IdType>`). The corresponding branch of
`Properties::get` (line 222) reads `std::hash<size_t>{}(std::hash(id))`, which
re-hashes and is moreover ill-formed (`std::hash(id)` deduces no template
argument), so it has no runtime semantics to embed. -/
def Properties.setKeyTrivial {α : Type} (hashId : α → Nat) (id : α) : Nat :=
  hashId id

/-- The key computed by `Properties::get` for a non-enum, non-trivial `IdType`
(lines 231-232): `std::hash<size_t>{}(sizeof(IdType))`, ignoring the value. The
corresponding branch of `Properties::set` (line 202) is ill-formed
(`std::hash<size_t>{}(sizeof(IdType), newprop)` passes two arguments to a
one-argument call operator), so it has no runtime semantics to embed. -/
def Properties.getKeySize (hash : Nat → Nat) (sizeofId : Nat) : Nat :=
  hash sizeofId

/-- `Properties::set` (lines 185-206) instantiated at an enumeration `IdType`
(the branch `if constexpr (std::is_enum<IdType>::value)`, lines 190-194):
wraps `value` in a fresh `Property<ValueType>` held as
`std::shared_ptr<BaseProperty>` and calls `insert` with the hashed key.
`u` is `static_cast<std::size_t>(id)`. -/
def Properties.setEnum (hash : Nat → Nat) (st : Properties) (A : ValTy)
    (u : Nat) (value : A.interp) : Properties :=
  let newprop : Cell := Cell.mk A (Property.mk value)
  Properties.mk (mapInsert st.mProperties (Properties.setKeyEnum hash u) newprop)

/-- `Properties::get` (lines 208-239) instantiated at an enumeration `IdType`
(lines 211-219): looks the hashed key up; if found, evaluates
`(*(res->second.get())).get<ValueType>().value()` — the dereferenced pointer
has static type `BaseProperty`, so the non-virtual `BaseProperty::get` is
called, and `.value()` is applied to its result (throwing
`std::bad_optional_access` when that optional is empty); if not found,
returns `std::nullopt`. -/
def Properties.getEnum (hash : Nat → Nat) (st : Properties) (A : ValTy)
    (u : Nat) : Except CppExc (Option A.interp) :=
  match mapFind st.mProperties (Properties.getKeyEnum hash u) with
  | some cell =>
      match BaseProperty.get A.interp cell.toBase with
      | some v => Except.ok (some v)
      | none => Except.error CppExc.badOptionalAccess
  | none => Except.ok none

/-- `Properties::get(id, fallback)` (lines 241-250), enum `IdType`: calls the
optional-returning `get` (an exception it throws propagates); returns
`fallback` when the optional is empty and the contained value otherwise. -/
def Properties.getFallbackEnum (hash : Nat → Nat) (st : Properties) (A : ValTy)
    (u : Nat) (fallback : A.interp) : Except CppExc A.interp :=
  match Properties.getEnum hash st A u with
  | Except.error e => Except.error e
  | Except.ok none => Except.ok fallback
  | Except.ok (some v) => Except.ok v

/-- Claim C1. Round-trip fails on the code: after
`set(BuildingPropertyId::BuildingType, BuildingType::TownCenter)`, the
matching-type `get<BuildingPropertyId, BuildingType>` finds the entry but
reaches it through the static type `BaseProperty`, whose non-virtual
`get` returns an empty optional, so the unconditional `.value()` throws
`std::bad_optional_access` instead of returning the stored value. -/
theorem C1_roundtrip_throws (hash : Nat → Nat) :
    Properties.getEnum hash
      (Properties.setEnum hash Properties.empty .tBuildingType
        (BuildingPropertyId.toUnderlying .BuildingType) .TownCenter)
      .tBuildingType (BuildingPropertyId.toUnderlying .BuildingType)
    = Except.error CppExc.badOptionalAccess := by
  simp [Properties.getEnum, Properties.setEnum, Properties.empty,
    Properties.setKeyEnum, Properties.getKeyEnum, mapInsert, mapFind,
    BaseProperty.get, Cell.toBase, BuildingPropertyId.toUnderlying]

/-- Witness for C1 at the identity hash. -/
theorem C1_roundtrip_throws_witness :
    Properties.getEnum (fun n => n)
      (Properties.setEnum (fun n => n) Properties.empty .tBuildingType
        (BuildingPropertyId.toUnderlying .BuildingType) .TownCenter)
      .tBuildingType (BuildingPropertyId.toUnderlying .BuildingType)
    = Except.error CppExc.badOptionalAccess :=
  C1_roundtrip_throws (fun n => n)

/-- Claim C2. Overwrite fails on the code: `std::unordered_map::insert` does
not replace an existing entry, so after `set(id, v1)` then `set(id, v2)` the
map still holds the cell created for `v1`; moreover the subsequent `get`
throws `std::bad_optional_access` rather than returning `v2`. -/
theorem C2_overwrite_keeps_first (hash : Nat → Nat) :
    mapFind
      (Properties.setEnum hash
        (Properties.setEnum hash Properties.empty .tBuildingType
          (BuildingPropertyId.toUnderlying .BuildingType) .TownCenter)
        .tBuildingType (BuildingPropertyId.toUnderlying .BuildingType)
        .Barracks).mProperties
      (hash (BuildingPropertyId.toUnderlying .BuildingType))
    = some (Cell.mk .tBuildingType (Property.mk BuildingType.TownCenter))
    ∧ Properties.getEnum hash
        (Properties.setEnum hash
          (Properties.setEnum hash Properties.empty .tBuildingType
            (BuildingPropertyId.toUnderlying .BuildingType) .TownCenter)
          .tBuildingType (BuildingPropertyId.toUnderlying .BuildingType)
          .Barracks)
        .tBuildingType (BuildingPropertyId.toUnderlying .BuildingType)
      = Except.error CppExc.badOptionalAccess := by
  constructor <;>
    simp [Properties.getEnum, Properties.setEnum, Properties.empty,
      Properties.setKeyEnum, Properties.getKeyEnum, mapInsert, mapFind,
      BaseProperty.get, Cell.toBase, BuildingPropertyId.toUnderlying]

/-- Witness for C2 at the identity hash. -/
theorem C2_overwrite_keeps_first_witness :
    mapFind
      (Properties.setEnum (fun n => n)
        (Properties.setEnum (fun n => n) Properties.empty .tBuildingType
          (BuildingPropertyId.toUnderlying .BuildingType) .TownCenter)
        .tBuildingType (BuildingPropertyId.toUnderlying .BuildingType)
        .Barracks).mProperties
      ((fun n => n) (BuildingPropertyId.toUnderlying .BuildingType))
    = some (Cell.mk .tBuildingType (Property.mk BuildingType.TownCenter))
    ∧ Properties.getEnum (fun n => n)
        (Properties.setEnum (fun n => n)
          (Properties.setEnum (fun n => n) Properties.empty .tBuildingType
            (BuildingPropertyId.toUnderlying .BuildingType) .TownCenter)
          .tBuildingType (BuildingPropertyId.toUnderlying .BuildingType)
          .Barracks)
        .tBuildingType (BuildingPropertyId.toUnderlying .BuildingType)
      = Except.error CppExc.badOptionalAccess :=
  C2_overwrite_keeps_first (fun n => n)

/-- Claim C3. The release-semantics type-mismatch fallback fails on the code:
with `BuildingType::TownCenter` stored under `BuildingPropertyId::BuildingType`,
the mismatched-type call `get<BuildingPropertyId, int>(id, 0)` does not return
the fallback `0`; the inner optional-returning `get` throws
`std::bad_optional_access` and the exception propagates out of the fallback
overload. -/
theorem C3_mismatch_throws (hash : Nat → Nat) :
    Properties.getFallbackEnum hash
      (Properties.setEnum hash Properties.empty .tBuildingType
        (BuildingPropertyId.toUnderlying .BuildingType) .TownCenter)
      .tInt (BuildingPropertyId.toUnderlying .BuildingType) 0
    = Except.error CppExc.badOptionalAccess := by
  simp [Properties.getFallbackEnum, Properties.getEnum, Properties.setEnum,
    Properties.empty, Properties.setKeyEnum, Properties.getKeyEnum, mapInsert,
    mapFind, BaseProperty.get, Cell.toBase, BuildingPropertyId.toUnderlying]

/-- Witness for C3 at the identity hash. -/
theorem C3_mismatch_throws_witness :
    Properties.getFallbackEnum (fun n => n)
      (Properties.setEnum (fun n => n) Properties.empty .tBuildingType
        (BuildingPropertyId.toUnderlying .BuildingType) .TownCenter)
      .tInt (BuildingPropertyId.toUnderlying .BuildingType) 0
    = Except.error CppExc.badOptionalAccess :=
  C3_mismatch_throws (fun n => n)

/-- Claim C4. The value-cell contract holds only in its matching-type half:
`Property<int>` built from `5` answers `get<int>()` with `5`, but the
mismatched request `get<bool>()` returns an optional containing `true`
(the `return mObj;` statement implicitly converts the `int` to `bool`)
instead of the empty optional the contract requires. -/
theorem C4_cell_conversion :
    Property.getSame (Property.mk (5 : Int)) = some (5 : Int)
    ∧ Property.getBoolOfInt (Property.mk (5 : Int)) = some true := by
  constructor <;> rfl

/-- Claim C5. The two enum branches do agree on the key (the hash of the
underlying value), and a `get` after a `set` through the same enum identifier
does reach the inserted slot — it fails with `std::bad_optional_access`
precisely because the entry was found, whereas an unreached slot would have
yielded `Except.ok none`. The non-enum branches have no such agreement (see
`Properties.setKeyTrivial` and `Properties.getKeySize`). -/
theorem C5_enum_branch_same_key (hash : Nat → Nat) (A : ValTy) (u : Nat)
    (v : A.interp) :
    Properties.setKeyEnum hash u = Properties.getKeyEnum hash u
    ∧ Properties.getEnum hash
        (Properties.setEnum hash Properties.empty A u v) A u
      = Except.error CppExc.badOptionalAccess := by
  refine ⟨rfl, ?_⟩
  simp [Properties.getEnum, Properties.setEnum, Properties.empty,
    Properties.setKeyEnum, Properties.getKeyEnum, mapInsert, mapFind,
    BaseProperty.get, Cell.toBase]

/-- Witness for C5 at the successor hash on a concrete integer property. -/
theorem C5_enum_branch_same_key_witness :
    Properties.setKeyEnum Nat.succ 3 = Properties.getKeyEnum Nat.succ 3
    ∧ Properties.getEnum Nat.succ
        (Properties.setEnum Nat.succ Properties.empty .tInt 3 2) .tInt 3
      = Except.error CppExc.badOptionalAccess :=
  C5_enum_branch_same_key Nat.succ .tInt 3 2

/-- Claim C6, counterexample to the claim as stated: `UnitPropertyId::MovementSpeed`
is never passed to `set`, yet `get(UnitPropertyId::MovementSpeed, 0)` on a
store holding only `BuildingPropertyId::BuildingType` does not return the
fallback `0` — the two identifiers share underlying value 1, so the lookup
finds the colliding entry and throws `std::bad_optional_access`. -/
theorem C6_never_set_counterexample :
    Properties.getFallbackEnum (fun n => n)
      (Properties.setEnum (fun n => n) Properties.empty .tBuildingType
        (BuildingPropertyId.toUnderlying .BuildingType) .TownCenter)
      .tInt (UnitPropertyId.toUnderlying .MovementSpeed) 0
    = Except.error CppExc.badOptionalAccess := by
  simp [Properties.getFallbackEnum, Properties.getEnum, Properties.setEnum,
    Properties.empty, Properties.setKeyEnum, Properties.getKeyEnum, mapInsert,
    mapFind, BaseProperty.get, Cell.toBase, BuildingPropertyId.toUnderlying,
    UnitPropertyId.toUnderlying]

/-- Claim C6, amended: for every identifier whose normalized key is absent
from the mapping (no `set` call produced that key), the optional-form `get`
returns empty and the fallback-form `get` returns exactly the fallback;
neither throws. -/
theorem C6_absent_key_fallback (hash : Nat → Nat) (st : Properties) (A : ValTy)
    (u : Nat) (fb : A.interp)
    (h : mapFind st.mProperties (Properties.getKeyEnum hash u) = none) :
    Properties.getEnum hash st A u = Except.ok none
    ∧ Properties.getFallbackEnum hash st A u fb = Except.ok fb := by
  have h1 : Properties.getEnum hash st A u = Except.ok none := by
    simp [Properties.getEnum, h]
  exact ⟨h1, by simp [Properties.getFallbackEnum, h1]⟩

/-- Witness for the amended C6 on the empty store. -/
theorem C6_absent_key_fallback_witness :
    mapFind Properties.empty.mProperties (Properties.getKeyEnum (fun n => n) 0)
      = none
    ∧ (Properties.getEnum (fun n => n) Properties.empty .tInt 0 = Except.ok none
       ∧ Properties.getFallbackEnum (fun n => n) Properties.empty .tInt 0 7
         = Except.ok (7 : Int)) :=
  ⟨rfl, C6_absent_key_fallback (fun n => n) Properties.empty .tInt 0 7 rfl⟩

/-- Claim C7. `BuildingPropertyId::BuildingType` and
`UnitPropertyId::MovementSpeed` come from different enumerations but share
underlying value 1, so both normalize to the same key — but after
`set(e1, TownCenter)` then `set(e2, 5)` the shared slot still holds the cell
from the FIRST write (`std::unordered_map::insert` does not replace), so the
later write does not shadow the earlier one. -/
theorem C7_collision_first_write_wins (hash : Nat → Nat) :
    Properties.setKeyEnum hash (BuildingPropertyId.toUnderlying .BuildingType)
      = Properties.setKeyEnum hash (UnitPropertyId.toUnderlying .MovementSpeed)
    ∧ mapFind
        (Properties.setEnum hash
          (Properties.setEnum hash Properties.empty .tBuildingType
            (BuildingPropertyId.toUnderlying .BuildingType) .TownCenter)
          .tInt (UnitPropertyId.toUnderlying .MovementSpeed) 5).mProperties
        (hash (UnitPropertyId.toUnderlying .MovementSpeed))
      = some (Cell.mk .tBuildingType (Property.mk BuildingType.TownCenter)) := by
  refine ⟨rfl, ?_⟩
  simp [Properties.setEnum, Properties.empty, Properties.setKeyEnum, mapInsert,
    mapFind, BuildingPropertyId.toUnderlying, UnitPropertyId.toUnderlying]

/-- Witness for C7 at the identity hash. -/
theorem C7_collision_first_write_wins_witness :
    Properties.setKeyEnum (fun n => n)
        (BuildingPropertyId.toUnderlying .BuildingType)
      = Properties.setKeyEnum (fun n => n)
          (UnitPropertyId.toUnderlying .MovementSpeed)
    ∧ mapFind
        (Properties.setEnum (fun n => n)
          (Properties.setEnum (fun n => n) Properties.empty .tBuildingType
            (BuildingPropertyId.toUnderlying .BuildingType) .TownCenter)
          .tInt (UnitPropertyId.toUnderlying .MovementSpeed) 5).mProperties
        ((fun n => n) (UnitPropertyId.toUnderlying .MovementSpeed))
      = some (Cell.mk .tBuildingType (Property.mk BuildingType.TownCenter)) :=
  C7_collision_first_write_wins (fun n => n)

/-- Claim C8. The source contains no assertion at all: on a present key with a
mismatched requested type, the optional-form `get` throws
`std::bad_optional_access` (from the unconditional `.value()`), in every build
configuration — there is no build-mode branch in the code — so no assertion
fires and the abort path is an uncaught exception, not an assert. -/
theorem C8_no_assert_throws (hash : Nat → Nat) :
    Properties.getEnum hash
      (Properties.setEnum hash Properties.empty .tBuildingType
        (BuildingPropertyId.toUnderlying .BuildingType) .TownCenter)
      .tInt (BuildingPropertyId.toUnderlying .BuildingType)
    = Except.error CppExc.badOptionalAccess := by
  simp [Properties.getEnum, Properties.setEnum, Properties.empty,
    Properties.setKeyEnum, Properties.getKeyEnum, mapInsert, mapFind,
    BaseProperty.get, Cell.toBase, BuildingPropertyId.toUnderlying]

/-- Witness for C8 at the identity hash. -/
theorem C8_no_assert_throws_witness :
    Properties.getEnum (fun n => n)
      (Properties.setEnum (fun n => n) Properties.empty .tBuildingType
        (BuildingPropertyId.toUnderlying .BuildingType) .TownCenter)
      .tInt (BuildingPropertyId.toUnderlying .BuildingType)
    = Except.error CppExc.badOptionalAccess :=
  C8_no_assert_throws (fun n => n)

/-- Claim C9. `Bounds(0,0,2,2).contains` is true at `(0,0)` and at the
inclusive upper corner `(2,2)`, and false at `(3,3)` and `(-1,0)`. -/
theorem C9_bounds_contains :
    Bounds.contains (Bounds.mk 0 0 2 2) 0 0 = true
    ∧ Bounds.contains (Bounds.mk 0 0 2 2) 2 2 = true
    ∧ Bounds.contains (Bounds.mk 0 0 2 2) 3 3 = false
    ∧ Bounds.contains (Bounds.mk 0 0 2 2) (-1) 0 = false := by
  decide

/-- Claim C10. Frame property of `set`: a `set` through an enum identifier
leaves the entry at every key other than the one the identifier normalizes to
unchanged. (Both `get` forms are `const` methods embedded as pure functions of
the store, so they leave the mapping unchanged by construction.) -/
theorem C10_set_frame (hash : Nat → Nat) (st : Properties) (A : ValTy) (u : Nat)
    (v : A.interp) (k : Nat) (h : k ≠ Properties.setKeyEnum hash u) :
    mapFind (Properties.setEnum hash st A u v).mProperties k
      = mapFind st.mProperties k := by
  unfold Properties.setEnum mapInsert
  cases hf : mapFind st.mProperties (Properties.setKeyEnum hash u) with
  | some c => simp [hf]
  | none =>
      simp only [hf, mapFind]
      rw [if_neg (fun he => h he.symm)]

/-- Witness for C10: setting key 0 on the empty store leaves key 1 unchanged. -/
theorem C10_set_frame_witness :
    (1 : Nat) ≠ Properties.setKeyEnum (fun n => n) 0
    ∧ mapFind
        (Properties.setEnum (fun n => n) Properties.empty .tInt 0 3).mProperties 1
      = mapFind Properties.empty.mProperties 1 :=
  ⟨by decide, C10_set_frame (fun n => n) Properties.empty .tInt 0 3 1 (by decide)⟩

end PropsProblem
